import Mathlib

/-!
Shallow embedding of the library-management service
(`src/services/library_service.py`) and verification of its specification.

Modelling conventions:
* Dates are modelled at day granularity as `Int` (the Python code compares
  `datetime.date` values and takes `.days` of their difference, so only the
  day-level difference ever matters to the logic verified here).
* Money is modelled in integer cents (`Nat` for fees, which are never
  negative; `ℚ` for the caller-supplied refund amount).  Every fee the code
  produces is a whole multiple of 50 cents, so Python's `round(fee, 2)` is
  the identity and float arithmetic is exact; the cents model is therefore
  numerically faithful.
* The persistence collaborator (`database.py`) is not part of the service
  sources; its accessors are modelled from the specification's interface
  contract (section 6) and marked as such in their doc comments.
* Fallible persistence writes are modelled by explicit success flags passed
  to each operation, standing for the boolean result of the corresponding
  collaborator call; a failed write leaves the store unchanged.
* The payment collaborator call is modelled by its outcome, an
  `Except String α` value: `.ok` is a normal return, `.error e` is a raised
  exception with message `e`.  The payment operations additionally return a
  `Bool` recording whether the collaborator was invoked.
-/

/-! String operations are modelled on the character list (`String.data`),
matching Python's character-based string semantics and keeping every
definition kernel-reducible on concrete inputs. -/

/-- Character count of a string (Python `len`). -/
def strLen (s : String) : Nat := s.data.length

/-- Lowercasing (Python `str.lower`; ASCII letters, which is all the claims
exercise). -/
def toLowerStr (s : String) : String := ⟨s.data.map Char.toLower⟩

/-- Whitespace stripping from both ends (Python `str.strip`). -/
def strTrim (s : String) : String :=
  ⟨((s.data.dropWhile Char.isWhitespace).reverse.dropWhile
      Char.isWhitespace).reverse⟩

/-- Leading-marker test (Python `str.startswith`). -/
def strStartsWith (s pre : String) : Bool := pre.data.isPrefixOf s.data

/-- Substring containment (Python `sub in s`). -/
def containsSub (s sub : String) : Bool :=
  (List.range (s.data.length + 1)).any
    (fun i => sub.data.isPrefixOf (s.data.drop i))

/-- The `books` row type: one catalog entry. -/
structure Book where
  id : Nat
  title : String
  author : String
  isbn : String
  total_copies : Int
  available_copies : Int
deriving DecidableEq

/-- The `borrow_records` row type.  `return_date = none` means the borrow is
still active. -/
structure BorrowRecord where
  patron_id : String
  book_id : Nat
  borrow_date : Int
  due_date : Int
  return_date : Option Int
deriving DecidableEq

/-- The persistence collaborator's state: the two tables it owns. -/
structure DB where
  books : List Book
  records : List BorrowRecord
deriving DecidableEq

/-- Modelled from the spec: `get_book_by_id(id) -> Book?` of the persistence
collaborator (database.py, not under the service sources): the catalog row
with the given primary key, if any. -/
def get_book_by_id (db : DB) (book_id : Nat) : Option Book :=
  db.books.find? (fun b => b.id == book_id)

/-- Modelled from the spec: `get_book_by_isbn(isbn) -> Book?` of the
persistence collaborator. -/
def get_book_by_isbn (db : DB) (isbn : String) : Option Book :=
  db.books.find? (fun b => b.isbn == isbn)

/-- Modelled from the spec: `get_all_books() -> list[Book]` of the
persistence collaborator: the catalog snapshot, in store order. -/
def get_all_books (db : DB) : List Book :=
  db.books

/-- Modelled from the spec: `get_patron_borrow_count(patron_id) -> int` of
the persistence collaborator: the number of the patron's active borrow
records (spec section 4.2: "Count patron's active borrows"). -/
def get_patron_borrow_count (db : DB) (patron_id : String) : Nat :=
  (db.records.filter
    (fun r => r.patron_id == patron_id && r.return_date.isNone)).length

/-- A row returned by `get_patron_borrowed_books`: an active borrow record
joined with its book's title and author (the status-report code reads
`r['title']` and `r['author']` off these rows). -/
structure BorrowedRow where
  book_id : Nat
  title : String
  author : String
  borrow_date : Int
  due_date : Int
deriving DecidableEq

/-- Modelled from the spec: `get_patron_borrowed_books(patron_id)` of the
persistence collaborator: the patron's active borrow records (those with no
return date), joined with book title/author, in store order. -/
def get_patron_borrowed_books (db : DB) (patron_id : String) :
    List BorrowedRow :=
  (db.records.filter
      (fun r => r.patron_id == patron_id && r.return_date.isNone)).filterMap
    (fun r =>
      (db.books.find? (fun b => b.id == r.book_id)).map
        (fun b => ⟨r.book_id, b.title, b.author, r.borrow_date, r.due_date⟩))

/-- Modelled from the spec: `insert_book(title, author, isbn, total_copies,
available_copies) -> bool` of the persistence collaborator; the new row gets
a fresh primary key. -/
def insert_book (db : DB) (title author isbn : String)
    (total_copies available_copies : Int) : DB :=
  { db with
    books := db.books ++
      [⟨(db.books.map Book.id).foldr max 0 + 1, title, author, isbn,
        total_copies, available_copies⟩] }

/-- Modelled from the spec: `insert_borrow_record(patron_id, book_id,
borrow_date, due_date) -> bool` of the persistence collaborator; the new
record starts with no return date. -/
def insert_borrow_record (db : DB) (patron_id : String) (book_id : Nat)
    (borrow_date due_date : Int) : DB :=
  { db with
    records := db.records ++ [⟨patron_id, book_id, borrow_date, due_date, none⟩] }

/-- Modelled from the spec: `update_book_availability(id, delta) -> bool` of
the persistence collaborator: adds `delta` to the availability counter of
the book with the given id. -/
def update_book_availability (db : DB) (book_id : Nat) (delta : Int) : DB :=
  { db with
    books := db.books.map (fun b =>
      if b.id == book_id then
        { b with available_copies := b.available_copies + delta }
      else b) }

/-- Modelled from the spec: `update_borrow_record_return_date(patron_id,
book_id, date) -> bool` of the persistence collaborator: stamps the return
date on the active record(s) for the given patron and book. -/
def update_borrow_record_return_date (db : DB) (patron_id : String)
    (book_id : Nat) (date : Int) : DB :=
  { db with
    records := db.records.map (fun r =>
      if r.patron_id == patron_id && r.book_id == book_id &&
          r.return_date.isNone then
        { r with return_date := some date }
      else r) }

/-- The patron-id validation used at the top of every service operation:
`not patron_id or not patron_id.isdigit() or len(patron_id) != 6` rejects.
(Python's `isdigit` also accepts some non-ASCII digit characters; the
claims only concern ASCII 6-digit ids, where the two agree.) -/
def isValidPatronId (patron_id : String) : Bool :=
  !patron_id.data.isEmpty && patron_id.data.all Char.isDigit &&
    strLen patron_id == 6

/-- The dictionary returned by `calculate_late_fee_for_book`.
`fee_amount` is in cents. -/
structure FeeInfo where
  fee_amount : Nat
  days_overdue : Nat
  status : String
deriving DecidableEq

/-- Embedding of `calculate_late_fee_for_book(patron_id, book_id)`
(library_service.py lines 159-200).  `today` stands for
`datetime.now().date()`.  Fees are in cents: $0.50/day for the first 7
overdue days, $1.00/day thereafter, capped at $15.00 = 1500 cents;
`round(fee, 2)` is the identity on these exact amounts. -/
def calculate_late_fee_for_book (db : DB) (patron_id : String)
    (book_id : Nat) (today : Int) : FeeInfo :=
  if !isValidPatronId patron_id then
    ⟨0, 0, "Invalid patron ID"⟩
  else
    match get_book_by_id db book_id with
    | none => ⟨0, 0, "Book not found"⟩
    | some _ =>
      match (get_patron_borrowed_books db patron_id).find?
          (fun r => r.book_id == book_id) with
      | none => ⟨0, 0, "No active borrow for this patron and book"⟩
      | some record =>
        let days_overdue : Int := today - record.due_date
        if days_overdue ≤ 0 then
          ⟨0, 0, "Not overdue"⟩
        else
          let d := days_overdue.toNat
          let first7 := min d 7 * 50
          let rest := (d - 7) * 100
          let fee := min (first7 + rest) 1500
          ⟨fee, d, "Overdue"⟩

/-- Embedding of `add_book_to_catalog(title, author, isbn, total_copies)`
(library_service.py lines 16-59).  `insOk` stands for the boolean result of
the `insert_book` collaborator call.  Returns the store after the call
together with the `(success, message)` pair.  The ISBN check in the source
is `len(isbn) != 13` only — the characters are never tested for
digit-ness. -/
def add_book_to_catalog (db : DB) (title author isbn : String)
    (total_copies : Int) (insOk : Bool) : DB × Bool × String :=
  if (strTrim title).data.isEmpty then
    (db, false, "Title is required.")
  else if 200 < strLen (strTrim title) then
    (db, false, "Title must be less than 200 characters.")
  else if (strTrim author).data.isEmpty then
    (db, false, "Author is required.")
  else if 100 < strLen (strTrim author) then
    (db, false, "Author must be less than 100 characters.")
  else if strLen isbn ≠ 13 then
    (db, false, "ISBN must be exactly 13 digits.")
  else if total_copies ≤ 0 then
    (db, false, "Total copies must be a positive integer.")
  else
    match get_book_by_isbn db isbn with
    | some _ => (db, false, "A book with this ISBN already exists.")
    | none =>
      if insOk then
        (insert_book db (strTrim title) (strTrim author) isbn total_copies
           total_copies,
         true,
         "Book \"" ++ strTrim title ++
           "\" has been successfully added to the catalog.")
      else
        (db, false, "Database error occurred while adding the book.")

/-- Embedding of `borrow_book_by_patron(patron_id, book_id)`
(library_service.py lines 61-104).  `now` is the borrow date;
`insOk`/`updOk` stand for the boolean results of the two collaborator
writes.  The success message's due-date formatting is elided: no claim
inspects the success message text. -/
def borrow_book_by_patron (db : DB) (patron_id : String) (book_id : Nat)
    (now : Int) (insOk updOk : Bool) : DB × Bool × String :=
  if !isValidPatronId patron_id then
    (db, false, "Invalid patron ID. Must be exactly 6 digits.")
  else
    match get_book_by_id db book_id with
    | none => (db, false, "Book not found.")
    | some book =>
      if book.available_copies ≤ 0 then
        (db, false, "This book is currently not available.")
      else if 5 < get_patron_borrow_count db patron_id then
        (db, false, "You have reached the maximum borrowing limit of 5 books.")
      else if !insOk then
        (db, false, "Database error occurred while creating borrow record.")
      else
        let db1 := insert_borrow_record db patron_id book_id now (now + 14)
        if !updOk then
          (db1, false, "Database error occurred while updating book availability.")
        else
          (update_book_availability db1 book_id (-1), true,
           "Successfully borrowed \"" ++ book.title ++ "\".")

/-- Step 6 of `return_book_by_patron` (library_service.py lines 141-148):
the guarded availability increment.  The increment is only attempted while
`available_copies < total_copies`; `incOk` stands for the boolean result
of the increment write, and `none` models the failed write (the
partial-success outcome). -/
def returnIncrement (db1 : DB) (book_id : Nat) (incOk : Bool) : Option DB :=
  match get_book_by_id db1 book_id with
  | some refreshed =>
    if refreshed.available_copies < refreshed.total_copies then
      if incOk then some (update_book_availability db1 book_id 1) else none
    else some db1
  | none => some db1

/-- Embedding of `return_book_by_patron(patron_id, book_id)`
(library_service.py lines 106-156).  `today` stands for `datetime.now()`
at day granularity (used both for the fee computation and as the recorded
return date); `retOk` stands for the boolean result of the return-date
write.  The fee is computed from the pre-write store `db` (the source
computes it before the return date is written, while the record is still
active); the return date is then stamped and `returnIncrement` runs on the
post-stamp store.  The Python locals `fee_info`/`db1` are inlined — the
expressions are pure, so sharing is immaterial — and the success message's
fee formatting is elided (no claim inspects it beyond the fee/no-fee
distinction). -/
def return_book_by_patron (db : DB) (patron_id : String) (book_id : Nat)
    (today : Int) (retOk incOk : Bool) : DB × Bool × String :=
  if !isValidPatronId patron_id then
    (db, false, "Invalid patron ID. Must be exactly 6 digits.")
  else
    match get_book_by_id db book_id with
    | none => (db, false, "Book not found.")
    | some book =>
      match (get_patron_borrowed_books db patron_id).find?
          (fun r => r.book_id == book_id) with
      | none => (db, false, "No active borrow record for this patron and book.")
      | some _ =>
        if !retOk then
          (db, false, "Database error occurred while updating return record.")
        else
          match returnIncrement
              (update_borrow_record_return_date db patron_id book_id today)
              book_id incOk with
          | none =>
            (update_borrow_record_return_date db patron_id book_id today,
             false, "Return recorded but failed to update book availability.")
          | some db2 =>
            if 0 < (calculate_late_fee_for_book db patron_id book_id
                      today).days_overdue &&
                0 < (calculate_late_fee_for_book db patron_id book_id
                      today).fee_amount then
              (db2, true,
               "Book \"" ++ book.title ++ "\" returned successfully. Late fee charged.")
            else
              (db2, true,
               "Book \"" ++ book.title ++ "\" returned successfully. No late fee.")

/-- Step 3 of `search_books_in_catalog` (library_service.py lines
220-225): kind normalization — `(search_type or 'title').lower()`, then
fall back to `"title"` when the result is not one of the three recognized
kinds. -/
def searchKind (search_type : String) : String :=
  if toLowerStr (if search_type.data.isEmpty then "title" else search_type)
        == "title" ||
      toLowerStr (if search_type.data.isEmpty then "title" else search_type)
        == "author" ||
      toLowerStr (if search_type.data.isEmpty then "title" else search_type)
        == "isbn" then
    toLowerStr (if search_type.data.isEmpty then "title" else search_type)
  else "title"

/-- Embedding of `search_books_in_catalog(search_term, search_type)`
(library_service.py lines 203-234): blank term returns the full snapshot;
the type is normalized by `searchKind`; isbn matches exactly, title and
author by case-insensitive substring.  The Python locals
(`books`/`q`/`stype`/`ql`) are inlined — pure expressions, so sharing is
immaterial. -/
def search_books_in_catalog (db : DB) (search_term search_type : String) :
    List Book :=
  if (strTrim search_term).data.isEmpty then get_all_books db
  else
    if searchKind search_type == "isbn" then
      (get_all_books db).filter (fun b => b.isbn == strTrim search_term)
    else
      (get_all_books db).filter (fun b =>
        containsSub
          (toLowerStr
            (if searchKind search_type == "title" then b.title else b.author))
          (toLowerStr (strTrim search_term)))

/-- One entry of a status report's `currently_borrowed` list; `late_fee` is
in cents. -/
structure ReportItem where
  book_id : Nat
  title : String
  author : String
  borrow_date : Int
  due_date : Int
  days_overdue : Nat
  late_fee : Nat
deriving DecidableEq

/-- The payload of `get_patron_status_report`; `total_late_fees_owed` is in
cents.  The `borrowing_history` field is omitted from the model: it is
produced by a raw SQL query outside the modelled accessor interface and no
claim inspects it. -/
structure Report where
  patron_id : String
  currently_borrowed_count : Nat
  currently_borrowed : List ReportItem
  total_late_fees_owed : Nat
deriving DecidableEq

/-- Embedding of `get_patron_status_report(patron_id)` (library_service.py
lines 237-315): per-loan overdue days and fee are recomputed inline with
the same tier constants as the fee calculator, and summed without a cap on
the total.  `round(total_fee, 2)` is the identity in the exact cents
model. -/
def get_patron_status_report (db : DB) (patron_id : String) (today : Int) :
    Except String Report :=
  if !isValidPatronId patron_id then
    .error "Invalid patron ID. Must be exactly 6 digits."
  else
    let current := get_patron_borrowed_books db patron_id
    let current_items := current.map (fun r =>
      let days_overdue := (max 0 (today - r.due_date)).toNat
      let fee :=
        if 0 < days_overdue then
          min (min days_overdue 7 * 50 + (days_overdue - 7) * 100) 1500
        else 0
      (⟨r.book_id, r.title, r.author, r.borrow_date, r.due_date,
        days_overdue, fee⟩ : ReportItem))
    let total_fee := (current_items.map ReportItem.late_fee).sum
    .ok ⟨patron_id, current_items.length, current_items, total_fee⟩

/-- Embedding of `pay_late_fees(patron_id, book_id, payment_gateway)`
(library_service.py lines 318-381).  `gateway` is the outcome of the
collaborator's `process_payment` call: `.ok (success, transaction_id,
message)` for a normal return, `.error e` for a raised exception with
message `e`.  The second component of the result records whether the
collaborator was invoked.  The source's `not fee_info or 'fee_amount' not
in fee_info` guard is vacuous (the fee dictionary always carries the key)
and is not modelled. -/
def pay_late_fees (db : DB) (patron_id : String) (book_id : Nat)
    (today : Int) (gateway : Except String (Bool × String × String)) :
    (Bool × String × Option String) × Bool :=
  if !isValidPatronId patron_id then
    ((false, "Invalid patron ID. Must be exactly 6 digits.", none), false)
  else
    if (calculate_late_fee_for_book db patron_id book_id today).fee_amount
        ≤ 0 then
      ((false, "No late fees to pay for this book.", none), false)
    else
      match get_book_by_id db book_id with
      | none => ((false, "Book not found.", none), false)
      | some _ =>
        match gateway with
        | .ok (success, transaction_id, message) =>
          if success then
            ((true, "Payment successful! " ++ message, some transaction_id),
             true)
          else
            ((false, "Payment failed: " ++ message, none), true)
        | .error e =>
          ((false, "Payment processing error: " ++ e, none), true)

/-- Embedding of `refund_late_fee_payment(transaction_id, amount,
payment_gateway)` (library_service.py lines 384-424).  `amount` is in
dollars (`ℚ`, exact); `gateway` is the outcome of the collaborator's
`refund_payment` call; the second component of the result records whether
the collaborator was invoked. -/
def refund_late_fee_payment (transaction_id : String) (amount : ℚ)
    (gateway : Except String (Bool × String)) : (Bool × String) × Bool :=
  if transaction_id.data.isEmpty || !strStartsWith transaction_id "txn_" then
    ((false, "Invalid transaction ID."), false)
  else if amount ≤ 0 then
    ((false, "Refund amount must be greater than 0."), false)
  else if 15 < amount then
    ((false, "Refund amount exceeds maximum late fee."), false)
  else
    match gateway with
    | .ok (success, message) =>
      if success then ((true, message), true)
      else ((false, "Refund failed: " ++ message), true)
    | .error e => ((false, "Refund processing error: " ++ e), true)

/-- A borrow or return call, together with the write-success flags of its
persistence writes (claim C2 quantifies over arbitrary call sequences). -/
inductive LibOp where
  | borrow (patron_id : String) (book_id : Nat) (now : Int) (insOk updOk : Bool)
  | ret (patron_id : String) (book_id : Nat) (today : Int) (retOk incOk : Bool)

/-- The store reached after one borrow/return call. -/
def applyOp (db : DB) : LibOp → DB
  | .borrow pid bid now insOk updOk =>
    (borrow_book_by_patron db pid bid now insOk updOk).1
  | .ret pid bid today retOk incOk =>
    (return_book_by_patron db pid bid today retOk incOk).1

/-- The store reached after a sequence of borrow/return calls. -/
def runOps (db : DB) (ops : List LibOp) : DB := ops.foldl applyOp db

/-- The availability invariant on the book table: primary keys are unique
and every availability counter lies between 0 and the book's total. -/
def AvailInv (db : DB) : Prop :=
  (db.books.map Book.id).Nodup ∧
  ∀ b ∈ db.books, 0 ≤ b.available_copies ∧ b.available_copies ≤ b.total_copies

instance (db : DB) : Decidable (AvailInv db) :=
  inferInstanceAs (Decidable (_ ∧ _))

/-- A one-book, one-active-borrow store: book 1 has due date 0 for patron
"123456", so running the fee calculator at day `d` means the loan is `d`
days overdue. -/
def feeDB : DB :=
  ⟨[⟨1, "Alpha", "Beta", "1111111111111", 2, 1⟩],
   [⟨"123456", 1, -14, 0, none⟩]⟩

/-- The corrected fee schedule for one fee computation whose loan is `d`
days overdue (in cents): not overdue means no fee; otherwise the min/max
formula holds, the first tier runs to 7 days, the second-tier formula holds
up to 18 days, and the $15.00 cap is reached from 19 days on. -/
def FeeTiersOK (fi : FeeInfo) (d : Int) : Prop :=
  (d ≤ 0 → fi = ⟨0, 0, "Not overdue"⟩) ∧
  (0 < d →
    fi.days_overdue = d.toNat ∧
    fi.fee_amount = min (min d.toNat 7 * 50 + (d.toNat - 7) * 100) 1500 ∧
    (d.toNat ≤ 7 → fi.fee_amount = d.toNat * 50) ∧
    (7 < d.toNat ∧ d.toNat ≤ 18 →
      fi.fee_amount = 350 + (d.toNat - 7) * 100) ∧
    (19 ≤ d.toNat → fi.fee_amount = 1500))

/-- The per-loan fee (in cents) as a function of today and the loan's due
date: the tiered formula applied to the positive part of the overdue-day
count.  Written exactly as the status reporter inlines it. -/
def feeFromDue (today due : Int) : Nat :=
  if 0 < (max 0 (today - due)).toNat then
    min (min (max 0 (today - due)).toNat 7 * 50 +
      ((max 0 (today - due)).toNat - 7) * 100) 1500
  else 0

/-- The empty store. -/
def emptyDB : DB := ⟨[], []⟩

/-- A store where patron "123456" holds exactly 5 active borrows (books
2 to 6) while book 1 is still available. -/
def limitDB : DB :=
  ⟨[⟨1, "Alpha", "Beta", "1111111111111", 2, 1⟩],
   [⟨"123456", 2, 0, 14, none⟩, ⟨"123456", 3, 0, 14, none⟩,
    ⟨"123456", 4, 0, 14, none⟩, ⟨"123456", 5, 0, 14, none⟩,
    ⟨"123456", 6, 0, 14, none⟩]⟩

/-- A store where patron "123456" holds three active loans, each 26 days
overdue at day 0, so each per-loan fee is capped at $15.00 and the
reported total is $45.00 — the sum is not re-capped. -/
def reportDB : DB :=
  ⟨[⟨1, "Alpha", "Beta", "1111111111111", 1, 0⟩,
    ⟨2, "Gamma", "Delta", "2222222222222", 1, 0⟩,
    ⟨3, "Epsilon", "Zeta", "3333333333333", 1, 0⟩],
   [⟨"123456", 1, -40, -26, none⟩, ⟨"123456", 2, -40, -26, none⟩,
    ⟨"123456", 3, -40, -26, none⟩]⟩

/-- A catalog with a single book titled "alpha" by author "beta". -/
def searchDB : DB := ⟨[⟨1, "alpha", "beta", "1111111111111", 1, 1⟩], []⟩

/-- Updating a book's availability does not change the list of primary
keys. -/
theorem map_id_update_book_availability (db : DB) (bid : Nat) (δ : Int) :
    (update_book_availability db bid δ).books.map Book.id =
      db.books.map Book.id := by
  unfold update_book_availability
  rw [List.map_map]
  apply List.map_congr_left
  intro b _
  dsimp only [Function.comp]
  split <;> rfl

/-- With unique primary keys, any list member whose id matches a successful
`find?` on that id is the found element itself. -/
theorem find_unique_of_nodup {books : List Book} {bid : Nat} {book b : Book}
    (hfind : books.find? (fun x => x.id == bid) = some book)
    (hnd : (books.map Book.id).Nodup)
    (hb : b ∈ books) (hid : b.id = bid) : b = book := by
  induction books with
  | nil => cases hfind
  | cons hd tl ih =>
    rw [List.map_cons, List.nodup_cons] at hnd
    by_cases hp : (hd.id == bid) = true
    · rw [@List.find?_cons_of_pos _ (fun x => x.id == bid) hd tl hp] at hfind
      obtain rfl := Option.some.inj hfind
      rcases List.mem_cons.mp hb with rfl | hmem
      · rfl
      · have hb' : b.id ∈ List.map Book.id tl :=
          List.mem_map_of_mem Book.id hmem
        rw [hid, ← beq_iff_eq.mp hp] at hb'
        exact absurd hb' hnd.1
    · rw [@List.find?_cons_of_neg _ (fun x => x.id == bid) hd tl hp] at hfind
      rcases List.mem_cons.mp hb with rfl | hmem
      · exact absurd (beq_iff_eq.mpr hid) hp
      · exact ih hfind hnd.2 hmem

/-- A guarded availability update preserves the availability invariant:
when the updated book's new counter still lies between 0 and its total,
every book's bounds survive. -/
theorem availInv_update (db : DB) (bid : Nat) (book : Book) (δ : Int)
    (hInv : AvailInv db) (hfind : get_book_by_id db bid = some book)
    (h0 : 0 ≤ book.available_copies + δ)
    (h1 : book.available_copies + δ ≤ book.total_copies) :
    AvailInv (update_book_availability db bid δ) := by
  obtain ⟨hnd, hb⟩ := hInv
  refine ⟨by rw [map_id_update_book_availability]; exact hnd, ?_⟩
  intro b' hb'
  unfold update_book_availability at hb'
  obtain ⟨b0, hb0, rfl⟩ := List.mem_map.mp hb'
  split
  next h =>
    obtain rfl : b0 = book :=
      find_unique_of_nodup hfind hnd hb0 (beq_iff_eq.mp h)
    exact ⟨h0, h1⟩
  next h =>
    exact hb b0 hb0

/-- A borrow call preserves the availability invariant: the decrement only
happens after the `available_copies <= 0` guard has failed. -/
theorem availInv_borrow (db : DB) (pid : String) (bid : Nat) (now : Int)
    (insOk updOk : Bool) (hInv : AvailInv db) :
    AvailInv (borrow_book_by_patron db pid bid now insOk updOk).1 := by
  unfold borrow_book_by_patron
  split
  · exact hInv
  split
  · exact hInv
  next book hbook =>
    split
    · exact hInv
    next hpos =>
      split
      · exact hInv
      split
      · exact hInv
      split
      · exact hInv
      have hbd := hInv.2 book (List.mem_of_find?_eq_some hbook)
      exact availInv_update (insert_borrow_record db pid bid now (now + 14))
        bid book (-1) hInv hbook (by omega) (by omega)

/-- A successful guarded increment preserves the availability invariant:
it only fires while `available_copies < total_copies`. -/
theorem availInv_returnIncrement (db1 : DB) (bid : Nat) (incOk : Bool)
    (db2 : DB) (hInv : AvailInv db1)
    (heq : returnIncrement db1 bid incOk = some db2) : AvailInv db2 := by
  unfold returnIncrement at heq
  split at heq
  next refreshed href =>
    split at heq
    · split at heq
      · obtain rfl := Option.some.inj heq
        have hbd := hInv.2 refreshed (List.mem_of_find?_eq_some href)
        exact availInv_update db1 bid refreshed 1 hInv href
          (by omega) (by omega)
      · cases heq
    · obtain rfl := Option.some.inj heq
      exact hInv
  next href =>
    obtain rfl := Option.some.inj heq
    exact hInv

/-- A return call preserves the availability invariant. -/
theorem availInv_return (db : DB) (pid : String) (bid : Nat) (today : Int)
    (retOk incOk : Bool) (hInv : AvailInv db) :
    AvailInv (return_book_by_patron db pid bid today retOk incOk).1 := by
  unfold return_book_by_patron
  split
  · exact hInv
  split
  · exact hInv
  next book hbook =>
    split
    · exact hInv
    next r hr =>
      split
      · exact hInv
      split
      next heq => exact hInv
      next db2 heq =>
        have h2 : AvailInv db2 :=
          availInv_returnIncrement
            (update_borrow_record_return_date db pid bid today)
            bid incOk db2 hInv heq
        split
        · exact h2
        · exact h2

/-- C2: starting from any store in which every book satisfies
`0 ≤ available_copies ≤ total_copies` (with unique book ids, the store's
primary-key discipline), every store reachable by any sequence of
`borrow_book_by_patron` / `return_book_by_patron` calls — with arbitrary
arguments and arbitrary persistence-write outcomes — still satisfies the
bounds for every book: borrow decrements only when `available_copies > 0`
and return increments only when `available_copies < total_copies`. -/
theorem C2_availability_invariant (db : DB) (ops : List LibOp)
    (h : AvailInv db) : AvailInv (runOps db ops) := by
  induction ops generalizing db with
  | nil => exact h
  | cons op tl ih =>
    cases op with
    | borrow pid bid now insOk updOk =>
      exact ih _ (availInv_borrow db pid bid now insOk updOk h)
    | ret pid bid today retOk incOk =>
      exact ih _ (availInv_return db pid bid today retOk incOk h)

/-- C2 (witness): the invariant holds of `feeDB` and survives a concrete
borrow-then-return sequence. -/
theorem C2_witness :
    AvailInv feeDB ∧
    AvailInv (runOps feeDB
      [LibOp.borrow "123456" 1 0 true true, LibOp.ret "123456" 1 20 true true]) :=
  ⟨by decide, C2_availability_invariant feeDB _ (by decide)⟩

/-- C3: with a valid patron id and an existing, available book, the borrow
call reports the limit-exceeded failure exactly when the patron's existing
active-borrow count strictly exceeds 5; in particular a patron with at
most 5 active borrows (so also exactly 5) is still allowed the next
borrow when both persistence writes succeed, and only a patron already
holding 6 or more active borrows is rejected. -/
theorem C3_borrow_limit (db : DB) (pid : String) (bid : Nat) (now : Int)
    (insOk updOk : Bool) (book : Book)
    (hValid : isValidPatronId pid = true)
    (hBook : get_book_by_id db bid = some book)
    (hAvail : 0 < book.available_copies) :
    ((borrow_book_by_patron db pid bid now insOk updOk).2 =
        (false, "You have reached the maximum borrowing limit of 5 books.") ↔
      5 < get_patron_borrow_count db pid) ∧
    (get_patron_borrow_count db pid ≤ 5 →
      (borrow_book_by_patron db pid bid now true true).2.1 = true) := by
  unfold borrow_book_by_patron
  rw [hValid, hBook]
  simp only [Bool.not_true, Bool.false_eq_true, if_false]
  rw [if_neg (by omega : ¬ book.available_copies ≤ 0)]
  by_cases hc : 5 < get_patron_borrow_count db pid
  · rw [if_pos hc, if_pos hc]
    exact ⟨⟨fun _ => hc, fun _ => rfl⟩, fun h => absurd hc (by omega)⟩
  · rw [if_neg hc, if_neg hc]
    constructor
    · constructor
      · intro h
        exfalso
        split at h
        · injection h with h1 h2
          exact absurd h2 (by decide)
        · split at h
          · injection h with h1 h2
            exact absurd h2 (by decide)
          · injection h with h1 h2
            cases h1
      · intro h
        exact absurd h hc
    · intro h
      rw [if_neg (by omega : ¬ book.available_copies ≤ 0)]

/-- C3 (witness): a patron with exactly 5 active borrows is allowed a 6th
borrow, and the limit iff instantiated at `limitDB`. -/
theorem C3_witness :
    isValidPatronId "123456" = true ∧
    get_patron_borrow_count limitDB "123456" = 5 ∧
    (((borrow_book_by_patron limitDB "123456" 1 0 true true).2 =
        (false, "You have reached the maximum borrowing limit of 5 books.") ↔
      5 < get_patron_borrow_count limitDB "123456") ∧
     (get_patron_borrow_count limitDB "123456" ≤ 5 →
      (borrow_book_by_patron limitDB "123456" 1 0 true true).2.1 = true)) :=
  ⟨by decide, by decide,
   C3_borrow_limit limitDB "123456" 1 0 true true
     ⟨1, "Alpha", "Beta", "1111111111111", 2, 1⟩ (by decide) (by decide)
     (by decide)⟩

/-- C4 (counterexample): in the partial-failure scenario — the return-date
write succeeds but the due availability increment fails — the operation
returns success flag `false`, i.e. the same failure flag as a full
failure, refuting the claim's "the return itself is treated as having
succeeded"; only the message (shown alongside) is distinct. -/
theorem C4_counterexample :
    (return_book_by_patron feeDB "123456" 1 20 true false).2.1 = false ∧
    (return_book_by_patron feeDB "123456" 1 20 true false).2.2 =
      "Return recorded but failed to update book availability." ∧
    (return_book_by_patron feeDB "123456" 1 20 false false).2.2 =
      "Database error occurred while updating return record." := by
  decide

/-- C4 (amended): when the return-date write succeeds but the due
availability increment fails, the operation returns a failure (flag
`false`, like the full failure) whose message is the distinct
partial-failure text, the return-date write is kept (not rolled back);
the outcome is distinguishable, by message only, from the failure
returned when the return-date write itself fails, which leaves the store
untouched. -/
theorem C4_partial_outcome (db : DB) (pid : String) (bid : Nat)
    (today : Int) (book : Book) (r : BorrowedRow)
    (hValid : isValidPatronId pid = true)
    (hBook : get_book_by_id db bid = some book)
    (hRec : (get_patron_borrowed_books db pid).find?
      (fun x => x.book_id == bid) = some r)
    (hLt : book.available_copies < book.total_copies) :
    return_book_by_patron db pid bid today true false =
      (update_borrow_record_return_date db pid bid today, false,
       "Return recorded but failed to update book availability.") ∧
    return_book_by_patron db pid bid today false false =
      (db, false, "Database error occurred while updating return record.") ∧
    "Return recorded but failed to update book availability." ≠
      "Database error occurred while updating return record." := by
  have hBook1 : get_book_by_id
      (update_borrow_record_return_date db pid bid today) bid = some book :=
    hBook
  refine ⟨?_, ?_, by decide⟩
  · unfold return_book_by_patron
    rw [hValid, hBook, hRec]
    simp only [Bool.not_true, Bool.not_false, Bool.false_eq_true, if_false]
    unfold returnIncrement
    rw [hBook1]
    dsimp only
    rw [if_pos hLt]
    simp only [Bool.false_eq_true, if_false]
  · unfold return_book_by_patron
    rw [hValid, hBook, hRec]
    simp only [Bool.not_true, Bool.not_false, Bool.false_eq_true, if_false,
      if_true]

/-- C4 (witness): the amended outcome instantiated at `feeDB`. -/
theorem C4_witness :
    isValidPatronId "123456" = true ∧
    (return_book_by_patron feeDB "123456" 1 20 true false =
      (update_borrow_record_return_date feeDB "123456" 1 20, false,
       "Return recorded but failed to update book availability.") ∧
     return_book_by_patron feeDB "123456" 1 20 false false =
      (feeDB, false, "Database error occurred while updating return record.") ∧
     "Return recorded but failed to update book availability." ≠
       "Database error occurred while updating return record.") :=
  ⟨by decide,
   C4_partial_outcome feeDB "123456" 1 20
     ⟨1, "Alpha", "Beta", "1111111111111", 2, 1⟩ ⟨1, "Alpha", "Beta", -14, 0⟩
     (by decide) (by decide) (by decide) (by decide)⟩

/-- C5: for every valid 6-digit patron id the status report succeeds and
its `total_late_fees_owed` is the plain, uncapped sum over the patron's
active loans of the per-loan fee `feeFromDue`; that per-loan fee is
numerically identical to the Fee Calculator's `fee_amount` whenever the
calculator resolves the same loan, and is itself capped at $15.00. -/
theorem C5_total_fees (db : DB) (pid : String) (today : Int)
    (hValid : isValidPatronId pid = true) :
    (∃ rep, get_patron_status_report db pid today = .ok rep ∧
      rep.total_late_fees_owed =
        ((get_patron_borrowed_books db pid).map
          (fun r => feeFromDue today r.due_date)).sum) ∧
    (∀ db2 bid book r, get_book_by_id db2 bid = some book →
      (get_patron_borrowed_books db2 pid).find?
        (fun x => x.book_id == bid) = some r →
      (calculate_late_fee_for_book db2 pid bid today).fee_amount =
        feeFromDue today r.due_date) ∧
    (∀ d due : Int, feeFromDue d due ≤ 1500) := by
  refine ⟨?_, ?_, ?_⟩
  · unfold get_patron_status_report
    rw [hValid]
    simp only [Bool.not_true, Bool.false_eq_true, if_false]
    exact ⟨_, rfl, by rw [List.map_map]; rfl⟩
  · intro db2 bid book r hBook hRec
    unfold calculate_late_fee_for_book feeFromDue
    rw [hValid, hBook, hRec]
    simp only [Bool.not_true, Bool.false_eq_true, if_false]
    by_cases hd : today - r.due_date ≤ 0
    · rw [if_pos hd, if_neg (by omega)]
    · rw [if_neg hd]
      have hmax : (max 0 (today - r.due_date)).toNat =
          (today - r.due_date).toNat := by omega
      rw [if_pos (by omega), hmax]
  · intro d due
    unfold feeFromDue
    split <;> omega

/-- C5 (witness): the sum property instantiated at `reportDB` at day 0,
where the uncapped total evaluates to $45.00 = 4500 cents. -/
theorem C5_witness :
    isValidPatronId "123456" = true ∧
    ((get_patron_borrowed_books reportDB "123456").map
      (fun r => feeFromDue 0 r.due_date)).sum = 4500 ∧
    ((∃ rep, get_patron_status_report reportDB "123456" 0 = .ok rep ∧
      rep.total_late_fees_owed =
        ((get_patron_borrowed_books reportDB "123456").map
          (fun r => feeFromDue 0 r.due_date)).sum) ∧
    (∀ db2 bid book r, get_book_by_id db2 bid = some book →
      (get_patron_borrowed_books db2 "123456").find?
        (fun x => x.book_id == bid) = some r →
      (calculate_late_fee_for_book db2 "123456" bid 0).fee_amount =
        feeFromDue 0 r.due_date) ∧
    (∀ d due : Int, feeFromDue d due ≤ 1500)) :=
  ⟨by decide, by decide, C5_total_fees reportDB "123456" 0 (by decide)⟩

/-- C6 (counterexample): an ISBN of 13 non-digit characters passes the
source's `len(isbn) != 13` check — the add succeeds and the catalog
changes — refuting "fails ... for every isbn argument that is not exactly
13 digit characters". -/
theorem C6_counterexample :
    (add_book_to_catalog emptyDB "T" "A" "ABCDEFGHIJKLM" 1 true).2.1 = true ∧
    (add_book_to_catalog emptyDB "T" "A" "ABCDEFGHIJKLM" 1 true).1 ≠ emptyDB ∧
    "ABCDEFGHIJKLM".data.all Char.isDigit = false := by
  decide

/-- C6 (amended): `add_book_to_catalog` fails, with no insert attempted
and the store unchanged, for every isbn whose character count differs
from 13; the characters are never tested for digit-ness. -/
theorem C6_isbn_length (db : DB) (title author isbn : String)
    (total_copies : Int) (insOk : Bool) (h : strLen isbn ≠ 13) :
    (add_book_to_catalog db title author isbn total_copies insOk).1 = db ∧
    (add_book_to_catalog db title author isbn total_copies insOk).2.1 =
      false := by
  unfold add_book_to_catalog
  rw [if_pos h]
  repeat' split
  all_goals exact ⟨rfl, rfl⟩

/-- C6 (witness): the amended failure instantiated at a 3-character
isbn. -/
theorem C6_witness :
    strLen "123" ≠ 13 ∧
    ((add_book_to_catalog emptyDB "T" "A" "123" 1 true).1 = emptyDB ∧
     (add_book_to_catalog emptyDB "T" "A" "123" 1 true).2.1 = false) :=
  ⟨by decide, C6_isbn_length emptyDB "T" "A" "123" 1 true (by decide)⟩

/-- C7: an exception raised by the payment collaborator is always caught:
whenever the collaborator was invoked and raised `e`, `pay_late_fees`
returns the failure result carrying "Payment processing error: e" and
`refund_late_fee_payment` the failure carrying "Refund processing error:
e"; no exception propagates (both embeddings are total functions into
result values). -/
theorem C7_gateway_exception_caught (db : DB) (pid : String) (bid : Nat)
    (today : Int) (tid : String) (amount : ℚ) (e : String) :
    ((pay_late_fees db pid bid today (.error e)).2 = true →
      (pay_late_fees db pid bid today (.error e)).1 =
        (false, "Payment processing error: " ++ e, none)) ∧
    ((refund_late_fee_payment tid amount (.error e)).2 = true →
      (refund_late_fee_payment tid amount (.error e)).1 =
        (false, "Refund processing error: " ++ e)) := by
  constructor
  · unfold pay_late_fees
    split
    · intro hcall; exact Bool.noConfusion hcall
    split
    · intro hcall; exact Bool.noConfusion hcall
    split
    · intro hcall; exact Bool.noConfusion hcall
    intro _
    rfl
  · unfold refund_late_fee_payment
    split
    · intro hcall; exact Bool.noConfusion hcall
    split
    · intro hcall; exact Bool.noConfusion hcall
    split
    · intro hcall; exact Bool.noConfusion hcall
    intro _
    rfl

/-- C7 (witness): a raising collaborator reached through the guards at
`feeDB` (overdue loan, so a fee is due and the call happens), for both the
payment and the refund paths. -/
theorem C7_witness :
    ((pay_late_fees feeDB "123456" 1 20 (.error "boom")).2 = true ∧
     (pay_late_fees feeDB "123456" 1 20 (.error "boom")).1 =
       (false, "Payment processing error: " ++ "boom", none)) ∧
    ((refund_late_fee_payment "txn_7" 5 (.error "down")).2 = true ∧
     (refund_late_fee_payment "txn_7" 5 (.error "down")).1 =
       (false, "Refund processing error: " ++ "down")) :=
  ⟨⟨by decide,
    (C7_gateway_exception_caught feeDB "123456" 1 20 "txn_7" 5 "boom").1
      (by decide)⟩,
   ⟨by norm_num [refund_late_fee_payment, strStartsWith],
    (C7_gateway_exception_caught feeDB "123456" 1 20 "txn_7" 5 "down").2
      (by norm_num [refund_late_fee_payment, strStartsWith])⟩⟩

/-- C8: the payment collaborator is never invoked when a guard fails:
with a valid patron id and a computed fee of zero, `pay_late_fees`
returns the no-fee failure with the collaborator-called flag `false`;
and with a non-positive amount, an amount above $15.00, an empty
transaction id, or one lacking the "txn_" marker,
`refund_late_fee_payment` returns a failure with the collaborator-called
flag `false`. -/
theorem C8_guards_skip_gateway (db : DB) (pid : String) (bid : Nat)
    (today : Int) (gw : Except String (Bool × String × String))
    (tid : String) (amount : ℚ) (gwr : Except String (Bool × String))
    (hValid : isValidPatronId pid = true)
    (hFee : (calculate_late_fee_for_book db pid bid today).fee_amount = 0)
    (hRef : amount ≤ 0 ∨ 15 < amount ∨ tid.data.isEmpty = true ∨
      strStartsWith tid "txn_" = false) :
    pay_late_fees db pid bid today gw =
      ((false, "No late fees to pay for this book.", none), false) ∧
    (refund_late_fee_payment tid amount gwr).1.1 = false ∧
    (refund_late_fee_payment tid amount gwr).2 = false := by
  refine ⟨?_, ?_⟩
  · unfold pay_late_fees
    rw [hValid]
    simp only [Bool.not_true, Bool.false_eq_true, if_false]
    rw [if_pos (by omega :
      (calculate_late_fee_for_book db pid bid today).fee_amount ≤ 0)]
  · unfold refund_late_fee_payment
    by_cases h1 : (tid.data.isEmpty || !strStartsWith tid "txn_") = true
    · rw [if_pos h1]; exact ⟨rfl, rfl⟩
    · rw [if_neg h1]
      by_cases h2 : amount ≤ 0
      · rw [if_pos h2]; exact ⟨rfl, rfl⟩
      · rw [if_neg h2]
        have h3 : 15 < amount := by
          rcases hRef with h | h | h | h
          · exact absurd h h2
          · exact h
          · exact absurd (by rw [h]; rfl) h1
          · exact absurd (by rw [h]; simp) h1
        rw [if_pos h3]
        exact ⟨rfl, rfl⟩

/-- C8 (witness): the guards instantiated with a zero fee (unknown book in
the empty store) and an empty transaction id. -/
theorem C8_witness :
    isValidPatronId "123456" = true ∧
    (calculate_late_fee_for_book emptyDB
      "123456" 1 0).fee_amount = 0 ∧
    ((10 : ℚ) ≤ 0 ∨ 15 < (10 : ℚ) ∨ "".data.isEmpty = true ∨
      strStartsWith "" "txn_" = false) ∧
    (pay_late_fees emptyDB "123456" 1 0 (.ok (true, "txn_1", "done")) =
      ((false, "No late fees to pay for this book.", none), false) ∧
     (refund_late_fee_payment "" 10 (.ok (true, "done"))).1.1 = false ∧
     (refund_late_fee_payment "" 10 (.ok (true, "done"))).2 = false) :=
  ⟨by decide, by decide, Or.inr (Or.inr (Or.inl (by decide))),
   C8_guards_skip_gateway emptyDB "123456" 1 0 (.ok (true, "txn_1", "done"))
     "" 10 (.ok (true, "done")) (by decide) (by decide)
     (Or.inr (Or.inr (Or.inl (by decide))))⟩

/-- C9 (counterexample): "Author" is a kind value outside
{title, author, isbn}, yet searching with it is an author search, not a
title search — the source lowercases the kind before the membership
test — so the two results differ on `searchDB`. -/
theorem C9_counterexample :
    ("Author" ≠ "title" ∧ "Author" ≠ "author" ∧ "Author" ≠ "isbn") ∧
    search_books_in_catalog searchDB "beta" "Author" ≠
      search_books_in_catalog searchDB "beta" "title" := by
  decide

/-- An unrecognized kind — one whose lowercase form is none of the three
recognized values — normalizes to "title". -/
theorem searchKind_unknown (stype : String)
    (h1 : toLowerStr stype ≠ "title")
    (h2 : toLowerStr stype ≠ "author")
    (h3 : toLowerStr stype ≠ "isbn") : searchKind stype = "title" := by
  unfold searchKind
  by_cases se : stype.data.isEmpty = true
  · rw [if_pos se]
    decide
  · rw [if_neg se]
    have hc : (toLowerStr stype == "title" || toLowerStr stype == "author" ||
        toLowerStr stype == "isbn") = false := by
      simp only [Bool.or_eq_false_iff, beq_eq_false_iff_ne, ne_eq]
      exact ⟨⟨h1, h2⟩, h3⟩
    rw [hc]
    simp only [Bool.false_eq_true, if_false]

/-- C9 (amended): the kind value is first lowercased (an empty kind
defaults to title); for every kind whose lowercase form is none of
"title"/"author"/"isbn", the search returns exactly the same list as a
title search on the same term and catalog snapshot. -/
theorem C9_unknown_kind_is_title (db : DB) (term stype : String)
    (h1 : toLowerStr stype ≠ "title")
    (h2 : toLowerStr stype ≠ "author")
    (h3 : toLowerStr stype ≠ "isbn") :
    search_books_in_catalog db term stype =
      search_books_in_catalog db term "title" := by
  unfold search_books_in_catalog
  rw [searchKind_unknown stype h1 h2 h3,
    (by decide : searchKind "title" = "title")]

/-- C9 (witness): the amended default instantiated with the unrecognized
kind "genre" on `searchDB`. -/
theorem C9_witness :
    (toLowerStr "genre" ≠ "title" ∧ toLowerStr "genre" ≠ "author" ∧
      toLowerStr "genre" ≠ "isbn") ∧
    search_books_in_catalog searchDB "alp" "genre" =
      search_books_in_catalog searchDB "alp" "title" :=
  ⟨⟨by decide, by decide, by decide⟩,
   C9_unknown_kind_is_title searchDB "alp" "genre" (by decide) (by decide)
     (by decide)⟩

/-- A string with a prefix longer than a given string differs from it. -/
theorem append_ne_short (p s t : String)
    (h : t.data.length < p.data.length) : p ++ s ≠ t := by
  intro he
  have hd := congrArg String.data he
  rw [String.data_append] at hd
  have hl := congrArg List.length hd
  rw [List.length_append] at hl
  omega

/-- A nonzero computed fee implies the fee calculator found the book. -/
theorem fee_pos_book_exists (db : DB) (pid : String) (bid : Nat)
    (today : Int)
    (h : (calculate_late_fee_for_book db pid bid today).fee_amount ≠ 0) :
    ∃ b, get_book_by_id db bid = some b := by
  unfold calculate_late_fee_for_book at h
  by_cases hv : (!isValidPatronId pid) = true
  · rw [if_pos hv] at h
    exact absurd rfl h
  · rw [if_neg hv] at h
    rcases hb : get_book_by_id db bid with _ | b
    · rw [hb] at h
      exact absurd rfl h
    · exact ⟨b, rfl⟩

/-- C10: `pay_late_fees` never returns the "Book not found." failure.
For a valid 6-digit patron id and a book id absent from the catalog the
fee calculator reports a zero fee with status "Book not found", so
`pay_late_fees` already fails with the no-fee message (collaborator not
invoked); and on all inputs whatsoever the returned message is never
"Book not found." — the book-lookup failure branch is unreachable. -/
theorem C10_book_not_found_unreachable (db : DB) (pid : String) (bid : Nat)
    (today : Int) (gw : Except String (Bool × String × String))
    (hValid : isValidPatronId pid = true)
    (hNone : get_book_by_id db bid = none) :
    calculate_late_fee_for_book db pid bid today =
      ⟨0, 0, "Book not found"⟩ ∧
    pay_late_fees db pid bid today gw =
      ((false, "No late fees to pay for this book.", none), false) ∧
    ∀ (db2 : DB) (pid2 : String) (bid2 : Nat) (today2 : Int)
      (gw2 : Except String (Bool × String × String)),
      (pay_late_fees db2 pid2 bid2 today2 gw2).1.2.1 ≠ "Book not found." := by
  have h1 : calculate_late_fee_for_book db pid bid today =
      ⟨0, 0, "Book not found"⟩ := by
    unfold calculate_late_fee_for_book
    rw [hValid, hNone]
    simp only [Bool.not_true, Bool.false_eq_true, if_false]
  refine ⟨h1, ?_, ?_⟩
  · unfold pay_late_fees
    rw [hValid]
    simp only [Bool.not_true, Bool.false_eq_true, if_false]
    rw [if_pos (show (calculate_late_fee_for_book db pid bid
        today).fee_amount ≤ 0 by rw [h1])]
  · intro db2 pid2 bid2 today2 gw2
    unfold pay_late_fees
    split
    · decide
    split
    · decide
    next hfee =>
      obtain ⟨b, hb⟩ :=
        fee_pos_book_exists db2 pid2 bid2 today2 (by omega)
      rw [hb]
      rcases gw2 with e | ⟨success, tid, msg⟩
      · exact append_ne_short "Payment processing error: " e
          "Book not found." (by decide)
      · dsimp only
        rcases success with _ | _
        · exact append_ne_short "Payment failed: " msg
            "Book not found." (by decide)
        · exact append_ne_short "Payment successful! " msg
            "Book not found." (by decide)

/-- C10 (witness): the unreachability instantiated at the empty store. -/
theorem C10_witness :
    isValidPatronId "123456" = true ∧
    get_book_by_id emptyDB 1 = none ∧
    (calculate_late_fee_for_book emptyDB "123456" 1 0 =
      ⟨0, 0, "Book not found"⟩ ∧
     pay_late_fees emptyDB "123456" 1 0 (.ok (true, "txn_9", "fine")) =
      ((false, "No late fees to pay for this book.", none), false) ∧
     ∀ (db2 : DB) (pid2 : String) (bid2 : Nat) (today2 : Int)
       (gw2 : Except String (Bool × String × String)),
       (pay_late_fees db2 pid2 bid2 today2 gw2).1.2.1 ≠ "Book not found.") :=
  ⟨by decide, by decide,
   C10_book_not_found_unreachable emptyDB "123456" 1 0
     (.ok (true, "txn_9", "fine")) (by decide) (by decide)⟩

/-- C1 (counterexample): at 20 days overdue the claim's second tier
"for `7 < days_overdue ≤ 29` the fee is `3.50 + (days_overdue-7)*1.00`"
demands $16.50 = 1650 cents, but the code caps the fee at $15.00 = 1500
cents, so the claimed equivalence is false. -/
theorem C1_counterexample :
    (calculate_late_fee_for_book feeDB "123456" 1 20).days_overdue = 20 ∧
    (calculate_late_fee_for_book feeDB "123456" 1 20).fee_amount = 1500 ∧
    ¬ (calculate_late_fee_for_book feeDB "123456" 1 20).fee_amount =
        350 + (20 - 7) * 100 := by
  decide

/-- C1 (amended): for every patron with a valid 6-digit id holding an
active borrow of an existing book, `calculate_late_fee_for_book` returns
`days_overdue = (now.date() - due_date.date()).days` when positive (else
0) and the fee `min(min(d,7)*0.50 + max(d-7,0)*1.00, 15.00)` (cents are
exact, so rounding is the identity); equivalently, for `d ≤ 7` the fee is
`d * 0.50`, for `7 < d ≤ 18` it is `3.50 + (d-7)*1.00`, and for `d ≥ 19`
it is `15.00`. -/
theorem C1_fee_schedule (db : DB) (patron_id : String) (book_id : Nat)
    (today : Int) (book : Book) (r : BorrowedRow)
    (hValid : isValidPatronId patron_id = true)
    (hBook : get_book_by_id db book_id = some book)
    (hRec : (get_patron_borrowed_books db patron_id).find?
      (fun x => x.book_id == book_id) = some r) :
    FeeTiersOK (calculate_late_fee_for_book db patron_id book_id today)
      (today - r.due_date) := by
  unfold calculate_late_fee_for_book FeeTiersOK
  rw [hValid, hBook, hRec]
  simp only [Bool.not_true, Bool.false_eq_true, if_false]
  constructor
  · intro hd
    rw [if_pos hd]
  · intro hd
    rw [if_neg (by omega)]
    dsimp only
    refine ⟨rfl, rfl, ?_, ?_, ?_⟩ <;> intro h <;> omega

/-- C1 (witness): the amended schedule instantiated at `feeDB` with the
loan 10 days overdue. -/
theorem C1_witness :
    isValidPatronId "123456" = true ∧
    FeeTiersOK (calculate_late_fee_for_book feeDB "123456" 1 10)
      (10 - (0 : Int)) :=
  ⟨by decide,
   C1_fee_schedule feeDB "123456" 1 10 ⟨1, "Alpha", "Beta", "1111111111111", 2, 1⟩
     ⟨1, "Alpha", "Beta", -14, 0⟩ (by decide) (by decide) (by decide)⟩

